import Mathlib

/-!
Shallow embedding of the per-guild music playback orchestrator in
`src/music.py` (class `Music`).  The per-guild view of the three global
dictionaries `self.queues`, `self.current_song`, `self.loop_mode` is a
`GuildState`; `none` in a field means the guild id is absent from the
corresponding dictionary.  The voice client and its `is_connected` /
`is_playing` / `is_paused` flags are external inputs; effects on the voice
sink and the notifier are returned as result fields.
-/

namespace RevoltShape

/-- The loop mode strings "off" / "song" / "queue" stored in `self.loop_mode`. -/
inductive LoopMode where
  | off
  | song
  | queue
deriving DecidableEq, Repr

/-- A song dictionary as built in the `play` command (src/music.py lines
255-265 / 280-290): stream url, title, metadata and the originating text
channel id (`text_channel_id` is read with `.get`, hence optional). -/
structure Song where
  id : String
  url : String
  title : String
  thumbnail : Option String
  duration : Nat
  webpage_url : String
  requester : String
  requester_avatar : Option String
  text_channel_id : Option Nat
deriving DecidableEq, Repr

/-- Per-guild view of the cog's state: `queue` mirrors `self.queues[gid]`
(`none` = key absent), `current_song` mirrors `self.current_song[gid]`,
`loop_mode` mirrors `self.loop_mode[gid]`, and `timerArmed` mirrors whether
`self.auto_leave_timers` holds a pending timer for the guild. -/
structure GuildState where
  queue : Option (List Song)
  current_song : Option Song
  loop_mode : Option LoopMode
  timerArmed : Bool
deriving DecidableEq, Repr

/-- `get_queue` (src/music.py lines 66-67): `self.queues.setdefault(guild_id,
deque())` — returns the queue and the state after the `setdefault`. -/
def get_queue (s : GuildState) : List Song × GuildState :=
  (s.queue.getD [], { s with queue := some (s.queue.getD []) })

/-- `get_loop_mode` (src/music.py lines 69-70): `self.loop_mode.get(guild_id,
"off")`. -/
def get_loop_mode (s : GuildState) : LoopMode :=
  s.loop_mode.getD LoopMode.off

/-- Modelled from the spec: the body of `_start_auto_leave_timer` is truncated
out of src/music.py; per §4.3 `arm` schedules the one-shot auto-leave action,
so arming is recorded as `timerArmed := true`. -/
def startTimer (s : GuildState) : GuildState :=
  { s with timerArmed := true }

/-- Modelled from the spec: the body of `_cancel_auto_leave_timer` is
truncated out of src/music.py; per §4.3 `cancel` drops any pending schedule,
so cancelling is recorded as `timerArmed := false`. -/
def cancelTimer (s : GuildState) : GuildState :=
  { s with timerArmed := false }

/-- Modelled from the spec: the body of `_reset_auto_leave_timer` is truncated
out of src/music.py; per §4.3 re-arming replaces the previous schedule
(cancel then arm), leaving the timer armed. -/
def resetTimer (s : GuildState) : GuildState :=
  { s with timerArmed := true }

/-- The next-song decision of `_play_next` (src/music.py lines 112-123), on
the loop mode, the current song (`self.current_song.get(guild_id)`) and the
queue.  Returns the chosen `next_song_info` and the queue left behind. -/
def chooseNext (loop : LoopMode) (cur : Option Song) (q : List Song) :
    Option Song × List Song :=
  match cur with
  | some c =>
    if loop = LoopMode.song then (some c, q)
    else
      match q with
      | x :: xs => (some x, if loop = LoopMode.queue then xs ++ [c] else xs)
      | [] => if loop = LoopMode.queue then (some c, []) else (none, [])
  | none =>
    match q with
    | x :: xs => (some x, xs)
    | [] => (none, [])

/-- Outcome of one `_play_next` call: the state left behind and the external
effects.  `played` is the song handed to `voice_client.play` (with stream
locator `streamPlayed`); `callbackGid` is the guild id the completion
callback `_play_next_after_error_check` is bound to (via `after=` on success,
via `create_task` on a dispatch error); `nowPlaying` / `errorNotification`
are the messages sent to the song's text channel; `timerStarted` /
`timerCancelled` record the calls to the auto-leave timer helpers. -/
structure PlayNextResult where
  state : GuildState
  played : Option Song
  streamPlayed : Option String
  callbackGid : Option Nat
  nowPlaying : Option Song
  errorNotification : Option String
  timerStarted : Bool
  timerCancelled : Bool
deriving DecidableEq, Repr

/-- `_play_next` (src/music.py lines 97-181).  `connected` is
`voice_client and voice_client.is_connected()`, `sinkPlaying` is
`voice_client.is_playing()` at the end of the call, and `dispatchError`
is `some e` when the `try` block around the dispatch (lines 127-158) raises
`e` (FFmpeg source creation or `voice_client.play`). -/
def playNext (gid : Nat) (connected sinkPlaying : Bool)
    (dispatchError : Option String) (s : GuildState) : PlayNextResult :=
  -- line 98: if guild_id not in self.current_song and guild_id not in self.queues: return
  if s.current_song = none ∧ s.queue = none then
    { state := s, played := none, streamPlayed := none, callbackGid := none,
      nowPlaying := none, errorNotification := none,
      timerStarted := false, timerCancelled := false }
  -- lines 101-107: not connected → pop all three dicts, cancel timer, return
  else if ¬ connected then
    { state := cancelTimer ⟨none, none, none, s.timerArmed⟩,
      played := none, streamPlayed := none, callbackGid := none,
      nowPlaying := none, errorNotification := none,
      timerStarted := false, timerCancelled := true }
  else
    -- lines 109-110: queue = self.get_queue(...); loop = self.get_loop_mode(...)
    let q := (get_queue s).1
    let s0 := (get_queue s).2
    let loop := get_loop_mode s
    -- lines 112-123
    let pick := chooseNext loop s.current_song q
    match pick.1 with
    | some song =>
      -- line 126: self.current_song[guild_id] = next_song_info
      let s1 := { s0 with queue := some pick.2, current_song := some song }
      match dispatchError with
      | none =>
        -- lines 136-139: play the stream url, bind the completion callback;
        -- lines 142-157: announce "Now Playing" in the song's text channel
        { state := s1, played := some song, streamPlayed := some song.url,
          callbackGid := some gid,
          nowPlaying := if song.text_channel_id.isSome then some song else none,
          errorNotification := none,
          timerStarted := false, timerCancelled := false }
      | some e =>
        -- lines 160-170: on a dispatch exception, notify the song's channel
        -- with the error truncated to 100 characters (str(e)[:100]) and
        -- schedule one _play_next_after_error_check(guild_id, e) task
        { state := s1, played := none, streamPlayed := none,
          callbackGid := some gid,
          nowPlaying := none,
          errorNotification :=
            if song.text_channel_id.isSome then some (e.take 100) else none,
          timerStarted := false, timerCancelled := false }
    | none =>
      -- lines 171-174: no next song → pop current_song, arm the auto-leave
      -- timer when still connected and not playing
      let s2 := { s0 with queue := some pick.2, current_song := none }
      if ¬ sinkPlaying then
        { state := startTimer s2, played := none, streamPlayed := none,
          callbackGid := none, nowPlaying := none, errorNotification := none,
          timerStarted := true, timerCancelled := false }
      else
        { state := s2, played := none, streamPlayed := none,
          callbackGid := none, nowPlaying := none, errorNotification := none,
          timerStarted := false, timerCancelled := false }

/-- Outcome of the completion callback `_play_next_after_error_check`
(src/music.py lines 183-186): whether the reported error was logged, how many
times `_play_next` was invoked, and what that invocation did. -/
structure CallbackRun where
  errorLogged : Bool
  advanceCalls : Nat
  result : PlayNextResult
deriving DecidableEq, Repr

/-- `_play_next_after_error_check` (src/music.py lines 183-186): logs the
error when one was reported, then awaits `_play_next` once. -/
def playNextAfterErrorCheck (gid : Nat) (error : Option String)
    (connected sinkPlaying : Bool) (dispatchError : Option String)
    (s : GuildState) : CallbackRun :=
  { errorLogged := error.isSome,
    advanceCalls := 1,
    result := playNext gid connected sinkPlaying dispatchError s }

/-- Outcome of the enqueue tail of the `play` command. -/
structure EnqueueResult where
  state : GuildState
  advanceTriggered : Bool
  advanceResult : Option PlayNextResult
  queuePosition : Option Nat
deriving DecidableEq, Repr

/-- The enqueue tail of the `play` command (src/music.py lines 308-330),
entered with the resolved `songs_to_add`: on an empty batch it returns with
no state change; otherwise it appends the songs to the guild's queue in
order, and when the voice sink is not playing and no current song is set it
awaits `_play_next`; otherwise it reports the queue position of a single
added song; finally it resets the auto-leave timer. -/
def enqueue (gid : Nat) (connected sinkPlaying : Bool) (songs : List Song)
    (s : GuildState) : EnqueueResult :=
  -- lines 308-311: if not songs_to_add: return
  if songs = [] then
    { state := s, advanceTriggered := false, advanceResult := none,
      queuePosition := none }
  else
    -- lines 313-315: queue = self.get_queue(...); append each song
    let q := (get_queue s).1 ++ songs
    let s1 := { s with queue := some q }
    -- line 317: if not voice_client.is_playing() and not self.current_song.get(...)
    if ¬ sinkPlaying ∧ s1.current_song = none then
      let r := playNext gid connected false none s1
      -- line 330: self._reset_auto_leave_timer(...)
      { state := resetTimer r.state, advanceTriggered := true,
        advanceResult := some r, queuePosition := none }
    else
      { state := resetTimer s1, advanceTriggered := false,
        advanceResult := none,
        queuePosition := if songs.length = 1 then some q.length else none }

/-- What the `skip` command reported to the user. -/
inductive SkipOutcome where
  | nothingPlaying
  | skipped (title : String)
deriving DecidableEq, Repr

/-- Outcome of the `skip` command: the state left behind, the reply,
whether `voice_client.stop()` was issued, and how many direct `_play_next`
calls `skip` itself made. -/
structure SkipResult where
  state : GuildState
  outcome : SkipOutcome
  sinkStopped : Bool
  advanceCalls : Nat
deriving DecidableEq, Repr

/-- `skip` (src/music.py lines 332-345).  `sinkPresent` is
`ctx.guild.voice_client` being non-None, `sinkPlaying` / `sinkPaused` its
`is_playing()` / `is_paused()`.  When something is playing or paused it only
issues `voice_client.stop()` (the `after` callback drives the advance) and
resets the auto-leave timer; it never calls `_play_next` itself. -/
def skip (sinkPresent sinkPlaying sinkPaused : Bool) (s : GuildState) :
    SkipResult :=
  -- lines 335-338: if not voice_client or not (is_playing or is_paused)
  if ¬ sinkPresent ∨ (¬ sinkPlaying ∧ ¬ sinkPaused) then
    { state := s, outcome := SkipOutcome.nothingPlaying,
      sinkStopped := false, advanceCalls := 0 }
  else
    -- lines 340-345
    let title :=
      match s.current_song with
      | some c => c.title
      | none => "the current song"
    { state := resetTimer s, outcome := SkipOutcome.skipped title,
      sinkStopped := true, advanceCalls := 0 }

/-- Outcome of the `stop` command. -/
structure StopResult where
  state : GuildState
  acted : Bool
  sinkStopped : Bool
  disconnected : Bool
deriving DecidableEq, Repr

/-- `stop` (src/music.py lines 347-361): with no connected voice client it
replies "Not Connected" and changes nothing; otherwise it pops the guild
from `self.queues`, `self.current_song` and `self.loop_mode` (lines
356-358).  The tail past line 361 is truncated out of src/music.py and is
modelled from the spec (§4.2 `stop`): stop the voice sink if playing or
paused, disconnect, cancel any armed idle timer. -/
def stop (connected sinkPlaying sinkPaused : Bool) (s : GuildState) :
    StopResult :=
  if ¬ connected then
    { state := s, acted := false, sinkStopped := false, disconnected := false }
  else
    { state := cancelTimer ⟨none, none, none, s.timerArmed⟩,
      acted := true, sinkStopped := sinkPlaying ∨ sinkPaused,
      disconnected := true }

/-- Repeatedly runs the completion-callback-driven advance: each step is one
`_play_next` on a connected, no-longer-playing sink with a clean dispatch,
exactly what a natural song completion triggers.  Collects the dispatched
songs in order and stops when an advance dispatches nothing (or the fuel
runs out). -/
def drain (gid : Nat) : Nat → GuildState → List Song × GuildState
  | 0, s => ([], s)
  | n + 1, s =>
    let r := playNext gid true false none s
    match r.played with
    | none => ([], r.state)
    | some song =>
      let rest := drain gid n r.state
      (song :: rest.1, rest.2)

/-- The alternating song sequence x, y, x, y, … of length n. -/
def altList (x y : Song) : Nat → List Song
  | 0 => []
  | n + 1 => x :: altList y x n

/-- Concrete song "A" for counterexamples. -/
def songA : Song :=
  { id := "idA", url := "streamA", title := "Song A", thumbnail := none,
    duration := 100, webpage_url := "pageA", requester := "alice",
    requester_avatar := none, text_channel_id := some 10 }

/-- Concrete song "B" for counterexamples. -/
def songB : Song :=
  { id := "idB", url := "streamB", title := "Song B", thumbnail := none,
    duration := 200, webpage_url := "pageB", requester := "bob",
    requester_avatar := none, text_channel_id := some 10 }

/-- A guild is present in the registry when at least one of the three
per-guild dictionaries holds an entry for it. -/
def present (s : GuildState) : Bool :=
  s.queue.isSome || s.current_song.isSome || s.loop_mode.isSome

/-! ### Helper lemmas -/

/-- With `loopMode = song` and a current song, one connected advance replays
the current song and leaves the state literally unchanged. -/
lemma playNext_song_loop (gid : Nat) (sp : Bool) (q : List Song) (c : Song)
    (t : Bool) :
    playNext gid true sp none ⟨some q, some c, some LoopMode.song, t⟩ =
      { state := ⟨some q, some c, some LoopMode.song, t⟩,
        played := some c, streamPlayed := some c.url, callbackGid := some gid,
        nowPlaying := if c.text_channel_id.isSome then some c else none,
        errorNotification := none,
        timerStarted := false, timerCancelled := false } := by
  simp [playNext, chooseNext, get_queue, get_loop_mode]

/-- Song-loop drain: every completion replays `c`; the state is a fixed
point. -/
lemma drain_song_loop (gid : Nat) (n : Nat) (q : List Song) (c : Song)
    (t : Bool) :
    drain gid n ⟨some q, some c, some LoopMode.song, t⟩ =
      (List.replicate n c, ⟨some q, some c, some LoopMode.song, t⟩) := by
  induction n with
  | zero => simp [drain]
  | succ n ih =>
    rw [drain, playNext_song_loop]
    simp [ih, List.replicate_succ]

/-- With `loopMode = queue`, a current song and a non-empty queue, a
connected advance pops the front song and appends the previous current song
to the back of the remaining queue. -/
lemma playNext_queue_loop_pop (gid : Nat) (sp : Bool) (x c : Song)
    (xs : List Song) (t : Bool) :
    playNext gid true sp none ⟨some (x :: xs), some c, some LoopMode.queue, t⟩ =
      { state := ⟨some (xs ++ [c]), some x, some LoopMode.queue, t⟩,
        played := some x, streamPlayed := some x.url, callbackGid := some gid,
        nowPlaying := if x.text_channel_id.isSome then some x else none,
        errorNotification := none,
        timerStarted := false, timerCancelled := false } := by
  simp [playNext, chooseNext, get_queue, get_loop_mode]

/-- With `loopMode = queue` and no current song, a connected advance just
pops the front song. -/
lemma playNext_queue_loop_pop_first (gid : Nat) (sp : Bool) (x : Song)
    (xs : List Song) (t : Bool) :
    playNext gid true sp none ⟨some (x :: xs), none, some LoopMode.queue, t⟩ =
      { state := ⟨some xs, some x, some LoopMode.queue, t⟩,
        played := some x, streamPlayed := some x.url, callbackGid := some gid,
        nowPlaying := if x.text_channel_id.isSome then some x else none,
        errorNotification := none,
        timerStarted := false, timerCancelled := false } := by
  simp [playNext, chooseNext, get_queue, get_loop_mode]

/-- Queue-loop alternation on a two-song cycle: from a one-song queue with a
current song, the dispatched sequence alternates between the two songs. -/
lemma drain_queue_loop_alt (gid : Nat) :
    ∀ (n : Nat) (x y : Song) (t : Bool),
      (drain gid n ⟨some [x], some y, some LoopMode.queue, t⟩).1 =
        altList x y n := by
  intro n
  induction n with
  | zero => intro x y t; simp [drain, altList]
  | succ n ih =>
    intro x y t
    rw [drain, playNext_queue_loop_pop]
    simp [altList, ih]

/-- Drain with an effectively-off loop mode: the queue plays out in FIFO
order exactly once each, then the current song is cleared and the auto-leave
timer armed. -/
lemma drain_loop_off (gid : Nat) (lm : Option LoopMode)
    (hlm : lm.getD LoopMode.off = LoopMode.off) :
    ∀ (q : List Song) (c : Option Song) (t : Bool),
      drain gid (q.length + 1) ⟨some q, c, lm, t⟩ =
        (q, ⟨some [], none, lm, true⟩) := by
  have hsong : lm ≠ some LoopMode.song := by
    intro h; rw [h] at hlm; exact LoopMode.noConfusion hlm
  have hqueue : lm ≠ some LoopMode.queue := by
    intro h; rw [h] at hlm; exact LoopMode.noConfusion hlm
  intro q
  induction q with
  | nil =>
    intro c t
    cases c with
    | none => simp [drain, playNext, chooseNext, get_queue, get_loop_mode, startTimer]
    | some c =>
      simp [drain, playNext, chooseNext, get_queue, get_loop_mode, startTimer, hlm]
  | cons x xs ih =>
    intro c t
    cases c with
    | none =>
      rw [List.length_cons, drain]
      simp only [playNext, chooseNext, get_queue, get_loop_mode]
      simp [ih (some x) t]
    | some c =>
      rw [List.length_cons, drain]
      simp only [playNext, chooseNext, get_queue, get_loop_mode, hlm]
      simp [hlm, ih (some x) t]

/-- A connected `_play_next` either leaves the state untouched (the
early-return on a fully absent guild) or leaves a queue entry in place, so
it never evicts the guild from the registry. -/
lemma playNext_connected_queue_isSome (gid : Nat) (sp : Bool)
    (de : Option String) (s : GuildState) :
    (playNext gid true sp de s).state = s ∨
      ((playNext gid true sp de s).state.queue).isSome = true := by
  unfold playNext
  split
  · left; rfl
  split
  · next h2 => simp at h2
  right
  rcases h3 : (chooseNext (get_loop_mode s) s.current_song (s.queue.getD [])).1
    with _ | song
  all_goals repeat' split
  all_goals simp [startTimer, get_queue, h3]

/-- A connected `_play_next` never touches the `loop_mode` entry. -/
lemma playNext_connected_loop_mode (gid : Nat) (sp : Bool)
    (de : Option String) (s : GuildState) :
    (playNext gid true sp de s).state.loop_mode = s.loop_mode := by
  unfold playNext
  split
  · rfl
  split
  · next h2 => simp at h2
  rcases h3 : (chooseNext (get_loop_mode s) s.current_song (s.queue.getD [])).1
    with _ | song
  all_goals repeat' split
  all_goals simp [startTimer, get_queue, h3]

/-- Resetting the auto-leave timer does not change registry presence. -/
lemma present_resetTimer (s : GuildState) : present (resetTimer s) = present s :=
  rfl

/-! ### Claim theorems -/

/-- Claim C1, counterexample: with `loopMode = queue` and initial queue
`[A, B]`, the advance triggered by A's completion pops B and then appends A,
so the queue afterwards is `[A]`, never `[B, A]` as the claim states. -/
theorem queue_loop_after_first_completion_counterexample :
    (playNext 0 true false none
        ⟨some [songA, songB], none, some LoopMode.queue, false⟩).played =
      some songA ∧
    (playNext 0 true false none
        (playNext 0 true false none
          ⟨some [songA, songB], none,
            some LoopMode.queue, false⟩).state).played = some songB ∧
    (playNext 0 true false none
        (playNext 0 true false none
          ⟨some [songA, songB], none,
            some LoopMode.queue, false⟩).state).state.queue = some [songA] ∧
    (playNext 0 true false none
        (playNext 0 true false none
          ⟨some [songA, songB], none,
            some LoopMode.queue, false⟩).state).state.queue ≠
      some [songB, songA] := by
  refine ⟨rfl, rfl, rfl, ?_⟩
  decide

/-- Claim C1 as amended: with `loopMode = queue`, an advance on a non-empty
queue pops the front song as next and, when a previous current song existed,
appends it to the back of the remaining queue after popping; from queue
`[x, y]` with no current song the dispatched order is x, y, x, y, …, and the
queue state after the first song's completion is `[x]` (first song at the
back), with the second song current. -/
theorem queue_loop_advance (x y c : Song) (xs : List Song) (t : Bool)
    (n : Nat) :
    (playNext 0 true false none
        ⟨some (x :: xs), some c, some LoopMode.queue, t⟩).played = some x ∧
    (playNext 0 true false none
        ⟨some (x :: xs), some c, some LoopMode.queue, t⟩).state.queue =
      some (xs ++ [c]) ∧
    (playNext 0 true false none
        ⟨some (x :: xs), none, some LoopMode.queue, t⟩).state.queue =
      some xs ∧
    (drain 0 n ⟨some [x, y], none, some LoopMode.queue, t⟩).1 =
      altList x y n ∧
    ((drain 0 2 ⟨some [x, y], none, some LoopMode.queue, t⟩).2).queue =
      some [x] ∧
    ((drain 0 2 ⟨some [x, y], none, some LoopMode.queue, t⟩).2).current_song =
      some y := by
  refine ⟨?_, ?_, ?_, ?_, ?_, ?_⟩
  · rw [playNext_queue_loop_pop]
  · rw [playNext_queue_loop_pop]
  · rw [playNext_queue_loop_pop_first]
  · cases n with
    | zero => simp [drain, altList]
    | succ n =>
      rw [drain, playNext_queue_loop_pop_first]
      simp [altList, drain_queue_loop_alt]
  · rw [drain, playNext_queue_loop_pop_first]
    simp [drain, playNext_queue_loop_pop]
  · rw [drain, playNext_queue_loop_pop_first]
    simp [drain, playNext_queue_loop_pop]

/-- Claim C3: with `loopMode = song` and a current song set, advance chooses
the current song unchanged; any number of repeated completions replays the
same song identity and never pops the queue (the state is a fixed point). -/
theorem song_loop_replay (gid : Nat) (n : Nat) (q : List Song) (c : Song)
    (t : Bool) :
    (playNext gid true false none
        ⟨some q, some c, some LoopMode.song, t⟩).played = some c ∧
    (playNext gid true false none
        ⟨some q, some c, some LoopMode.song, t⟩).state =
      ⟨some q, some c, some LoopMode.song, t⟩ ∧
    drain gid n ⟨some q, some c, some LoopMode.song, t⟩ =
      (List.replicate n c, ⟨some q, some c, some LoopMode.song, t⟩) := by
  refine ⟨?_, ?_, drain_song_loop gid n q c t⟩
  · rw [playNext_song_loop]
  · rw [playNext_song_loop]

/-- Claim C7: a connected `stop` pops the guild from all three per-guild
dictionaries, so a subsequent `get_queue` returns a fresh empty queue and
`get_loop_mode` returns "off", with no current song. -/
theorem stop_clears_state (pl pa : Bool) (s : GuildState) :
    (stop true pl pa s).state.queue = none ∧
    (stop true pl pa s).state.current_song = none ∧
    (stop true pl pa s).state.loop_mode = none ∧
    (get_queue (stop true pl pa s).state).1 = [] ∧
    get_loop_mode (stop true pl pa s).state = LoopMode.off ∧
    (stop true pl pa s).acted = true := by
  simp [stop, get_queue, get_loop_mode, cancelTimer]

/-- Claim C8: `skip` with no voice client, or with a voice client that is
neither playing nor paused, replies "nothing to skip" and changes nothing:
the state is returned untouched, the sink is not stopped, and no advance is
made. -/
theorem skip_nothing_playing (pres pl pa : Bool) (s : GuildState) :
    skip false pl pa s =
      { state := s, outcome := SkipOutcome.nothingPlaying,
        sinkStopped := false, advanceCalls := 0 } ∧
    skip pres false false s =
      { state := s, outcome := SkipOutcome.nothingPlaying,
        sinkStopped := false, advanceCalls := 0 } := by
  constructor
  · simp [skip]
  · cases pres <;> simp [skip]

/-- Claim C9: `skip` while playing or paused never calls `_play_next` itself
and never mutates the queue, the current song or the loop mode; it only
stops the voice sink (the completion callback then drives the single
advance). -/
theorem skip_only_stops_sink (pl pa : Bool) (s : GuildState) :
    ((skip true true pa s).advanceCalls = 0 ∧
      (skip true true pa s).state.queue = s.queue ∧
      (skip true true pa s).state.current_song = s.current_song ∧
      (skip true true pa s).state.loop_mode = s.loop_mode ∧
      (skip true true pa s).sinkStopped = true) ∧
    ((skip true pl true s).advanceCalls = 0 ∧
      (skip true pl true s).state.queue = s.queue ∧
      (skip true pl true s).state.current_song = s.current_song ∧
      (skip true pl true s).state.loop_mode = s.loop_mode ∧
      (skip true pl true s).sinkStopped = true) := by
  constructor
  · simp [skip, resetTimer]
  · cases pl <;> simp [skip, resetTimer]

/-- Claim C10: when the guild has neither a queue entry nor a current-song
entry, `_play_next` returns immediately: the state is unchanged (nothing is
created), nothing is handed to the voice sink, no callback is bound, no
message is sent, and the auto-leave timer is neither started nor
cancelled. -/
theorem advance_absent_state_noop (gid : Nat) (connected sp : Bool)
    (de : Option String) (lm : Option LoopMode) (t : Bool) :
    playNext gid connected sp de ⟨none, none, lm, t⟩ =
      { state := ⟨none, none, lm, t⟩, played := none, streamPlayed := none,
        callbackGid := none, nowPlaying := none, errorNotification := none,
        timerStarted := false, timerCancelled := false } := by
  simp [playNext]

/-- Claim C2, counterexample: when the voice sink reports an error through
the completion callback (`after=` with a non-None error), the handler logs
it and advances exactly once, but sends no error notification to the
originating channel — the notification only exists on the dispatch-exception
path inside `_play_next`. -/
theorem callback_error_no_notification_counterexample :
    (playNextAfterErrorCheck 3 (some "stream died") true false none
        ⟨some [songB], some songA, none, false⟩).errorLogged = true ∧
    (playNextAfterErrorCheck 3 (some "stream died") true false none
        ⟨some [songB], some songA, none, false⟩).advanceCalls = 1 ∧
    (playNextAfterErrorCheck 3 (some "stream died") true false none
        ⟨some [songB], some songA, none, false⟩).result.played = some songB ∧
    (playNextAfterErrorCheck 3 (some "stream died") true false none
        ⟨some [songB], some songA, none, false⟩).result.errorNotification =
      none := ⟨rfl, rfl, rfl, rfl⟩

/-- Claim C2 as amended: a voice-sink error reported to the completion
callback is logged and results in exactly one `_play_next` invocation whose
outcome is identical to a clean completion (so the queue never stalls —
with a song waiting, it is dispatched next); a truncated error notification
(`str(e)[:100]`) is sent to the originating channel only when the error is
raised while dispatching the next song, and that path also schedules the
completion callback exactly once, bound to the guild id. -/
theorem callback_error_handling (gid : Nat) (e e' : String) (c sp : Bool)
    (de : Option String) (s : GuildState) (x : Song) (xs : List Song)
    (t : Bool) :
    (playNextAfterErrorCheck gid (some e) c sp de s).advanceCalls = 1 ∧
    (playNextAfterErrorCheck gid (some e) c sp de s).errorLogged = true ∧
    (playNextAfterErrorCheck gid (some e) c sp de s).result =
      (playNextAfterErrorCheck gid none c sp de s).result ∧
    (playNextAfterErrorCheck gid (some e) true false none
        ⟨some (x :: xs), none, none, t⟩).result.played = some x ∧
    (playNext gid true sp (some e')
        ⟨some (x :: xs), none, none, t⟩).errorNotification =
      (if x.text_channel_id.isSome then some (e'.take 100) else none) ∧
    (playNext gid true sp (some e')
        ⟨some (x :: xs), none, none, t⟩).callbackGid = some gid := by
  refine ⟨rfl, rfl, rfl, ?_, ?_, ?_⟩
  · simp [playNextAfterErrorCheck, playNext, chooseNext, get_queue,
      get_loop_mode]
  · simp [playNext, chooseNext, get_queue, get_loop_mode]
  · simp [playNext, chooseNext, get_queue, get_loop_mode]

/-- Claim C4: enqueueing a non-empty batch on an idle guild (no current
song, sink not playing) with an effectively-off loop mode appends the songs
to the queue in order and triggers `_play_next`; draining the resulting
queue by completion callbacks plays every song in FIFO order exactly once,
after which the current song is cleared, the queue is empty, and the
auto-leave timer is armed (the `_start_auto_leave_timer` call fires exactly
on the exhausting advance of a connected, non-playing sink). -/
theorem enqueue_fifo (gid : Nat) (x : Song) (rest q0 : List Song)
    (lm : Option LoopMode) (hlm : lm.getD LoopMode.off = LoopMode.off)
    (t : Bool) :
    (enqueue gid true false (x :: rest) ⟨some q0, none, lm, t⟩).advanceTriggered =
      true ∧
    (enqueue gid true false (x :: rest) ⟨some q0, none, lm, t⟩).advanceResult =
      some (playNext gid true false none
        ⟨some (q0 ++ x :: rest), none, lm, t⟩) ∧
    drain gid ((q0 ++ x :: rest).length + 1)
        ⟨some (q0 ++ x :: rest), none, lm, t⟩ =
      (q0 ++ x :: rest, ⟨some [], none, lm, true⟩) ∧
    (playNext gid true false none ⟨some [], some x, lm, t⟩).timerStarted =
      true ∧
    (playNext gid true false none
        ⟨some [], some x, lm, t⟩).state.current_song = none := by
  have hsong : lm ≠ some LoopMode.song := by
    intro h; rw [h] at hlm; exact LoopMode.noConfusion hlm
  have hqueue : lm ≠ some LoopMode.queue := by
    intro h; rw [h] at hlm; exact LoopMode.noConfusion hlm
  refine ⟨?_, ?_, drain_loop_off gid lm hlm (q0 ++ x :: rest) none t, ?_, ?_⟩
  · simp [enqueue, get_queue]
  · simp [enqueue, get_queue]
  · simp [playNext, chooseNext, get_queue, get_loop_mode, startTimer, hlm]
  · simp [playNext, chooseNext, get_queue, get_loop_mode, startTimer, hlm]

/-- Witness for `enqueue_fifo` at a concrete idle guild. -/
theorem enqueue_fifo_witness :
    Option.getD (none : Option LoopMode) LoopMode.off = LoopMode.off ∧
    (enqueue 0 true false (songA :: [songB])
        ⟨some [], none, none, false⟩).advanceTriggered = true :=
  ⟨rfl, (enqueue_fifo 0 songA [songB] [] none rfl false).1⟩

/-- Claim C5, counterexample: an advance that finds the voice connection
lost clears the whole guild state even though a non-empty queue remains, so
state is not preserved "when the voice connection is lost and a queue
remains" as the claim requires. -/
theorem disconnected_advance_destroys_counterexample :
    (⟨some [songA], none, some LoopMode.off, true⟩ : GuildState).queue =
      some [songA] ∧
    ([songA] : List Song) ≠ [] ∧
    (playNext 0 false false none
        ⟨some [songA], none, some LoopMode.off, true⟩).state =
      ⟨none, none, none, false⟩ := by
  refine ⟨rfl, by simp, rfl⟩

/-- Claim C5 as amended: guild playback state is destroyed exactly by `stop`
and by an advance that finds the voice connection lost (regardless of any
remaining queue); the connected advance, the completion callback on a
connected sink, `skip`, and `enqueue` on a connected sink all keep the guild
present (and `skip` does not touch queue, current song or loop mode at
all). -/
theorem state_lifecycle :
    (∀ (pl pa : Bool) (s : GuildState),
      (stop true pl pa s).state = ⟨none, none, none, false⟩) ∧
    (∀ (gid : Nat) (sp : Bool) (de : Option String) (s : GuildState),
      ¬(s.current_song = none ∧ s.queue = none) →
        (playNext gid false sp de s).state = ⟨none, none, none, false⟩) ∧
    (∀ (gid : Nat) (sp : Bool) (de : Option String) (s : GuildState),
      present s = true → present (playNext gid true sp de s).state = true) ∧
    (∀ (pres pl pa : Bool) (s : GuildState),
      (skip pres pl pa s).state.queue = s.queue ∧
      (skip pres pl pa s).state.current_song = s.current_song ∧
      (skip pres pl pa s).state.loop_mode = s.loop_mode) ∧
    (∀ (gid : Nat) (sp : Bool) (songs : List Song) (s : GuildState),
      present s = true → present (enqueue gid true sp songs s).state = true) ∧
    (∀ (gid : Nat) (e : Option String) (sp : Bool) (s : GuildState),
      present s = true →
        present (playNextAfterErrorCheck gid e true sp none s).result.state =
          true) := by
  have hconn : ∀ (gid : Nat) (sp : Bool) (de : Option String) (s : GuildState),
      present s = true → present (playNext gid true sp de s).state = true := by
    intro gid sp de s hp
    rcases playNext_connected_queue_isSome gid sp de s with h | h
    · rw [h]; exact hp
    · simp [present, h]
  refine ⟨?_, ?_, hconn, ?_, ?_, ?_⟩
  · intro pl pa s; simp [stop, cancelTimer]
  · intro gid sp de s h
    unfold playNext
    rw [if_neg h]
    simp [cancelTimer]
  · intro pres pl pa s
    unfold skip
    split <;> exact ⟨rfl, rfl, rfl⟩
  · intro gid sp songs s hp
    cases songs with
    | nil => simpa [enqueue] using hp
    | cons x xs =>
      have hne : (x :: xs : List Song) ≠ [] := by simp
      simp only [enqueue, if_neg hne]
      split
      · simp only [present_resetTimer]
        exact hconn gid false none _ (by simp [present])
      · simp only [present_resetTimer]
        simp [present]
  · intro gid e sp s hp
    exact hconn gid sp none s hp

/-- Witness for `state_lifecycle` applied at a concrete present guild and a
guild whose queue entry is non-empty while disconnected. -/
theorem state_lifecycle_witness :
    present ⟨some [songA], none, none, false⟩ = true ∧
    present (playNext 0 true false none
        ⟨some [songA], none, none, false⟩).state = true ∧
    ¬((⟨some [songA], some songB, none, true⟩ : GuildState).current_song =
        none ∧
      (⟨some [songA], some songB, none, true⟩ : GuildState).queue = none) ∧
    (playNext 1 false false none
        ⟨some [songA], some songB, none, true⟩).state =
      ⟨none, none, none, false⟩ := by
  refine ⟨rfl, ?_, ?_, ?_⟩
  · exact state_lifecycle.2.2.1 0 false none
      ⟨some [songA], none, none, false⟩ rfl
  · simp
  · exact state_lifecycle.2.1 1 false none
      ⟨some [songA], some songB, none, true⟩ (by simp)

/-- Claim C6, counterexample: an advance that dispatches a song does not
cancel an armed idle timer — `_play_next` never calls
`_cancel_auto_leave_timer` on its dispatch path, so the timer stays armed
while the song plays. -/
theorem dispatch_keeps_timer_counterexample :
    (⟨some [], some songA, some LoopMode.song, true⟩ : GuildState).timerArmed =
      true ∧
    (playNext 7 true false none
        ⟨some [], some songA, some LoopMode.song, true⟩).played = some songA ∧
    (playNext 7 true false none
        ⟨some [], some songA, some LoopMode.song, true⟩).timerCancelled =
      false ∧
    (playNext 7 true false none
        ⟨some [], some songA, some LoopMode.song, true⟩).state.timerArmed =
      true := ⟨rfl, rfl, rfl, rfl⟩

/-- Claim C6 as amended: whenever a connected advance chooses a next song,
it sets the current song to it, hands that song's stream locator to the
voice sink, and binds the completion callback to the guild id — but it does
not touch the armed idle timer (no cancel call exists on the dispatch
path). -/
theorem advance_dispatch_effects (gid : Nat) (sp : Bool) (s : GuildState)
    (song : Song)
    (h : (playNext gid true sp none s).played = some song) :
    (playNext gid true sp none s).state.current_song = some song ∧
    (playNext gid true sp none s).streamPlayed = some song.url ∧
    (playNext gid true sp none s).callbackGid = some gid ∧
    (playNext gid true sp none s).state.timerArmed = s.timerArmed ∧
    (playNext gid true sp none s).timerCancelled = false := by
  revert h
  unfold playNext
  split
  · intro h; cases h
  split
  · next h2 => simp at h2
  rcases h3 : (chooseNext (get_loop_mode s) s.current_song (s.queue.getD [])).1
    with _ | song'
  all_goals repeat' split
  all_goals simp [startTimer, get_queue, h3]
  all_goals intro h
  all_goals simp [h]

/-- Witness for `advance_dispatch_effects` at a concrete song-loop state
with the timer armed. -/
theorem advance_dispatch_effects_witness :
    (playNext 7 true false none
        ⟨some [], some songA, some LoopMode.song, true⟩).played =
      some songA ∧
    (playNext 7 true false none
        ⟨some [], some songA, some LoopMode.song, true⟩).state.current_song =
      some songA :=
  ⟨rfl, (advance_dispatch_effects 7 false
    ⟨some [], some songA, some LoopMode.song, true⟩ songA rfl).1⟩

end RevoltShape
